import Mathlib

/-!
Verification development for dashboards/scripts/index-refresh.py.

The script is a single-pass pipeline: it probes the dashboard service's
status endpoint for a version string, fetches the root endpoint of the
data store, resolves an index-pattern name to a saved-object id, fetches
the live field list, optionally merges fields declared in a mapping
template, classifies every field name against an ordered chain of
regular-expression rules to build a per-field drilldown-link map, and
finally writes the combined field list and link map back (unless a
dry run was requested).

The definitions below shallowly embed that script: the regular
expressions of the elif chain become decidable predicates on strings
(evaluated, as in the script, case-insensitively), the field/link
dictionaries become Lean structures and association lists, and the
whole of main's effectful skeleton becomes a pure function from the
collaborators' responses to the trace of issued requests and printed
lines.
-/

namespace IndexRefresh

/-! ## Character and list-of-character helpers used by the regex embedding -/

/-- Lower-case a string, character by character (models Python's
re.IGNORECASE by normalising the subject; the patterns below are
written in lower case). -/
def lowerData (s : String) : List Char := s.data.map Char.toLower

/-- The character class `[\b_\.-]` of the hash/hit/port patterns:
backspace (a `\b` inside a character class is the backspace character),
underscore, dot, hyphen. -/
def sepClass (c : Char) : Bool := c == '_' || c == '.' || c == '-' || c == '\x08'

/-- A regex word character (`\w`): letter, digit, or underscore. -/
def isWordChar (c : Char) : Bool := c.isAlphanum || c == '_'

/-- Does `p` occur as a leading segment of `s`? -/
def hasPfx : List Char → List Char → Bool
  | [], _ => true
  | _ :: _, [] => false
  | c :: p, d :: s => c == d && hasPfx p s

/-- Does `p` occur as a trailing segment of `s`? -/
def hasSfx (p s : List Char) : Bool := hasPfx p.reverse s.reverse

/-- Does `p` occur as a contiguous segment anywhere in `s`? -/
def hasSubstr (p : List Char) : List Char → Bool
  | [] => hasPfx p []
  | c :: rest => hasPfx p (c :: rest) || hasSubstr p rest

/-! ## The nine name patterns of the elif chain (index-refresh.py lines 189-246) -/

/-- `re.search(r'[_\.-](h|ip)$', name, re.IGNORECASE)`: the name ends in
a separator from `{_, ., -}` followed by `h` or `ip`. -/
def ipHostMatch (name : String) : Bool :=
  ["_h", ".h", "-h", "_ip", ".ip", "-ip"].any fun p => hasSfx p.data (lowerData name)

/-- The hash-algorithm literals of `(md5|sha(1|256|384|512))`. -/
def hashNames : List String := ["md5", "sha1", "sha256", "sha384", "sha512"]

/-- `\b` immediately after a word character: the next character is
absent or not a word character. -/
def boundaryAfter : List Char → Bool
  | [] => true
  | c :: _ => !(isWordChar c)

/-- Some hash literal starts here, followed by a word boundary. -/
def hashAt (s : List Char) : Bool :=
  hashNames.any fun h => hasPfx h.data s && boundaryAfter (s.drop h.data.length)

/-- Scan for a `sepClass` character immediately followed by a hash
literal and a word boundary. -/
def hashSearchFrom : List Char → Bool
  | [] => false
  | c :: rest => (sepClass c && hashAt rest) || hashSearchFrom rest

/-- `re.search(r'(^|[\b_\.-])(md5|sha(1|256|384|512))\b', name, re.IGNORECASE)`. -/
def hashMatch (name : String) : Bool :=
  hashAt (lowerData name) || hashSearchFrom (lowerData name)

/-- The full set of tails accepted by `(hit|signature(_?id))?s?$`
(both groups optional, `id` mandatory in the `signature` branch). -/
def hitTails : List String :=
  ["", "s", "hit", "hits", "signature_id", "signature_ids", "signatureid", "signatureids"]

/-- The rest of the subject is exactly one of the accepted tails. -/
def hitTailAt (s : List Char) : Bool := hitTails.any fun w => s == w.data

/-- Scan for a `sepClass` character whose remainder is an accepted tail. -/
def hitSearchFrom : List Char → Bool
  | [] => false
  | c :: rest => (sepClass c && hitTailAt rest) || hitSearchFrom rest

/-- `re.search(r'(^|[\b_\.-])(hit|signature(_?id))?s?$', name, re.IGNORECASE)`. -/
def hitMatch (name : String) : Bool :=
  hitTailAt (lowerData name) || hitSearchFrom (lowerData name)

/-- The tails accepted by `p(ort)?s?$`. -/
def portTails : List String := ["p", "ps", "port", "ports"]

/-- The literal alternatives of `(src|dst|source|dest|destination)`. -/
def portDirWords : List String := ["src", "dst", "source", "dest", "destination"]

/-- The rest of the subject is exactly one of `p`, `ps`, `port`, `ports`. -/
def portTailAt (s : List Char) : Bool := portTails.any fun w => s == w.data

/-- One of the direction literals starts here and is followed exactly by
an accepted port tail. -/
def portDirAt (s : List Char) : Bool :=
  portDirWords.any fun w => hasPfx w.data s && portTailAt (s.drop w.data.length)

/-- Scan the subject for either a `sepClass` character followed by a
port tail, or a direction literal followed by a port tail. -/
def portSearchFrom : List Char → Bool
  | [] => false
  | c :: rest =>
      (sepClass c && portTailAt rest) || portDirAt (c :: rest) || portSearchFrom rest

/-- `re.search(r'(^|src|dst|source|dest|destination|[\b_\.-])p(ort)?s?$', name, re.IGNORECASE)`. -/
def portMatch (name : String) : Bool :=
  portTailAt (lowerData name) || portSearchFrom (lowerData name)

/-- `re.search(r'^(protocol?|network\.protocol)$', name, re.IGNORECASE)`:
a full match, with the final `l` of `protocol` optional. -/
def protocolMatch (name : String) : Bool :=
  ["protoco", "protocol", "network.protocol"].any fun w => lowerData name == w.data

/-- `re.search(r'^(network\.transport|ipProtocol)$', name, re.IGNORECASE)`. -/
def transportMatch (name : String) : Bool :=
  ["network.transport", "ipprotocol"].any fun w => lowerData name == w.data

/-- `re.search(r'(as\.number|(src|dst)ASN|asn\.(src|dst))$', name, re.IGNORECASE)`. -/
def asnMatch (name : String) : Bool :=
  ["as.number", "srcasn", "dstasn", "asn.src", "asn.dst"].any fun w =>
    hasSfx w.data (lowerData name)

/-- `re.search(r'mime[_\.-]?type', name, re.IGNORECASE)`. -/
def mimeMatch (name : String) : Bool :=
  ["mimetype", "mime_type", "mime.type", "mime-type"].any fun w =>
    hasSubstr w.data (lowerData name)

/-- `re.search(r'(^zeek\.files\.extracted$)', name, re.IGNORECASE)`. -/
def extractedMatch (name : String) : Bool :=
  lowerData name == "zeek.files.extracted".data

/-- `field['name'][:1].isalpha()`: the name is non-empty and its first
character is alphabetic. -/
def startsAlpha (s : String) : Bool :=
  match s.data with
  | [] => false
  | c :: _ => c.isAlpha

/-! ## Field descriptors and drilldown link records -/

/-- A field descriptor as exchanged with the dashboard service: the
attributes the script reads (`name`, `type`) and the attributes it
synthesizes for merged template fields. -/
structure Field where
  name : String
  type : String
  esTypes : List String
  searchable : Bool
  aggregatable : Bool
  readFromDocValues : Bool
deriving DecidableEq, Repr

/-- One `{url, label}` record of a drilldown `urlTemplates` list. -/
structure UrlTemplateValues where
  url : String
  label : String
deriving DecidableEq, Repr

/-- The `params` object of a format-map entry: its `urlTemplates` list,
whose entries are either the `null` placeholder or a link record. -/
structure DrilldownParams where
  urlTemplates : List (Option UrlTemplateValues)
deriving DecidableEq, Repr

/-- A format-map entry `{id: "drilldown", params: {...}}`. -/
structure DrilldownInfo where
  id : String
  params : DrilldownParams
deriving DecidableEq, Repr

/-- The base link added for every field (index-refresh.py lines 182-187):
value quoted when the semantic type is `string`, the name prefixed with
`db:` unless it starts with `zeek`. -/
def arkimeLink (f : Field) : UrlTemplateValues :=
  let valQuote : String := if f.type == "string" then "\"" else ""
  let valDbPfx : String := if hasPfx "zeek".data f.name.data then "" else "db:"
  { url := "/idkib2ark/" ++ valDbPfx ++ f.name ++ " == " ++ valQuote ++ "\x7b\x7bvalue\x7d\x7d" ++ valQuote,
    label := "Arkime " ++ f.name ++ ": " ++ valQuote ++ "\x7b\x7bvalue\x7d\x7d" ++ valQuote }

/-- IP reputation link (lines 190-194). -/
def vtIpLink : UrlTemplateValues :=
  { url := "https://www.virustotal.com/en/ip-address/\x7b\x7bvalue\x7d\x7d/information/",
    label := "VirusTotal IP: \x7b\x7bvalue\x7d\x7d" }

/-- Hash reputation link (lines 197-201). -/
def vtHashLink : UrlTemplateValues :=
  { url := "https://www.virustotal.com/gui/file/\x7b\x7bvalue\x7d\x7d/detection",
    label := "VirusTotal Hash: \x7b\x7bvalue\x7d\x7d" }

/-- Web search link for hits/signature ids (lines 204-208). -/
def webSearchLink : UrlTemplateValues :=
  { url := "https://duckduckgo.com/?q=\"\x7b\x7bvalue\x7d\x7d\"",
    label := "Web Search: \x7b\x7bvalue\x7d\x7d" }

/-- Port registry link (lines 211-215). -/
def portRegistryLink : UrlTemplateValues :=
  { url := "https://www.iana.org/assignments/service-names-port-numbers/service-names-port-numbers.xhtml?search=\x7b\x7bvalue\x7d\x7d",
    label := "Port Registry: \x7b\x7bvalue\x7d\x7d" }

/-- Service registry link (lines 218-222). -/
def serviceRegistryLink : UrlTemplateValues :=
  { url := "https://www.iana.org/assignments/service-names-port-numbers/service-names-port-numbers.xhtml?search=\x7b\x7bvalue\x7d\x7d",
    label := "Service Registry: \x7b\x7bvalue\x7d\x7d" }

/-- Transport protocol-number registry link, with no value interpolation
(lines 225-229). -/
def protocolRegistryLink : UrlTemplateValues :=
  { url := "https://www.iana.org/assignments/protocol-numbers/protocol-numbers.xhtml",
    label := "Protocol Registry" }

/-- ASN registry link (lines 232-236). -/
def arinAsnLink : UrlTemplateValues :=
  { url := "https://search.arin.net/rdap/?query=\x7b\x7bvalue\x7d\x7d&searchFilter=asn",
    label := "ARIN ASN: \x7b\x7bvalue\x7d\x7d" }

/-- Media-type registry link (lines 241-244). -/
def mediaTypeLink : UrlTemplateValues :=
  { url := "https://www.iana.org/assignments/media-types/\x7b\x7bvalue\x7d\x7d",
    label := "Media Type Registry: \x7b\x7bvalue\x7d\x7d" }

/-- Extracted-file download link, quarantined variant (lines 248-251). -/
def dlQuarantineLink : UrlTemplateValues :=
  { url := "/dl-extracted-files/quarantine/\x7b\x7bvalue\x7d\x7d",
    label := "Download (if quarantined)" }

/-- Extracted-file download link, preserved variant (lines 252-255). -/
def dlPreservedLink : UrlTemplateValues :=
  { url := "/dl-extracted-files/preserved/\x7b\x7bvalue\x7d\x7d",
    label := "Download (if preserved)" }

/-- The if/elif chain of lines 189-255: the category links appended to
the `urlTemplates` list after the base link.  Each branch appends the
links of its category and no later branch is tested. -/
def categoryLinks (f : Field) : List (Option UrlTemplateValues) :=
  if f.type == "ip" || ipHostMatch f.name then [some vtIpLink]
  else if hashMatch f.name then [some vtHashLink]
  else if hitMatch f.name then [some webSearchLink]
  else if portMatch f.name then [some portRegistryLink]
  else if protocolMatch f.name then [some serviceRegistryLink]
  else if transportMatch f.name then [some protocolRegistryLink]
  else if asnMatch f.name then [some arinAsnLink]
  else if mimeMatch f.name then [some mediaTypeLink]
  else if extractedMatch f.name then [some dlQuarantineLink, some dlPreservedLink]
  else []

/-- The full `urlTemplates` value for one field: the `None` placeholder,
the base link of line 187, then the first matching category's links. -/
def fieldUrlTemplates (f : Field) : List (Option UrlTemplateValues) :=
  [none, some (arkimeLink f)] ++ categoryLinks f

/-- Python-dict insertion into an association list: replace the binding
of an existing key, otherwise append at the end. -/
def dictInsert (m : List (String × DrilldownInfo)) (k : String) (v : DrilldownInfo) :
    List (String × DrilldownInfo) :=
  match m with
  | [] => [(k, v)]
  | (k', v') :: rest => if k' == k then (k, v) :: rest else (k', v') :: dictInsert rest k v

/-- Python-dict lookup in an association list. -/
def mapLookup (m : List (String × DrilldownInfo)) (k : String) : Option DrilldownInfo :=
  match m with
  | [] => none
  | (k', v) :: rest => if k' == k then some v else mapLookup rest k

/-- One iteration of the `fieldFormatMap` loop (lines 178-264): a field
whose name starts with an alphabetic character contributes one entry
keyed by its name, any other field contributes nothing. -/
def formatStep (m : List (String × DrilldownInfo)) (f : Field) : List (String × DrilldownInfo) :=
  if startsAlpha f.name then
    dictInsert m f.name { id := "drilldown", params := { urlTemplates := fieldUrlTemplates f } }
  else m

/-- The `fieldFormatMap` loop of lines 177-264. -/
def buildFieldFormatMap (fields : List Field) : List (String × DrilldownInfo) :=
  fields.foldl formatStep []

/-! ## Template merge (index-refresh.py lines 104-146) -/

/-- One property entry of the template's `mappings.properties` object:
its name and, when the `type` key is present, its declared low-level
type. -/
structure TemplateProp where
  name : String
  type? : Option String
deriving DecidableEq, Repr

/-- The allow-list of line 117. -/
def mergeFieldTypes : List String :=
  ["date", "float", "integer", "ip", "keyword", "long", "short", "text"]

/-- Membership test on a list of names, as Python's `in`. -/
def listHas (xs : List String) (x : String) : Bool :=
  match xs with
  | [] => false
  | y :: rest => y == x || listHas rest x

/-- The field dict synthesized for a merged template field
(lines 123-138). -/
def mergedFieldInfo (name ty : String) : Field :=
  let esTypes := [ty]
  let semType : String :=
    if ty == "float" || ty == "integer" || ty == "long" || ty == "short" then "number"
    else if ty == "keyword" || ty == "text" then "string"
    else ty
  let aggregatable := !(listHas esTypes "text")
  { name := name, esTypes := esTypes, type := semType,
    searchable := true, aggregatable := aggregatable, readFromDocValues := aggregatable }

/-- The merge loop of lines 116-140: walk the template properties, and
for each one that is not yet in the running name list, carries a `type`
key, and whose type is allow-listed, append its name to the name list
and its synthesized descriptor to the field list. -/
def mergeTemplateFields : List TemplateProp → List String → List Field → List String × List Field
  | [], names, fields => (names, fields)
  | p :: rest, names, fields =>
    match p.type? with
    | none => mergeTemplateFields rest names fields
    | some ty =>
      if !(listHas names p.name) && listHas mergeFieldTypes ty then
        mergeTemplateFields rest (names ++ [p.name]) (fields ++ [mergedFieldInfo p.name ty])
      else
        mergeTemplateFields rest names fields

/-- The (name, type) pairs of the template properties eligible for the
merge against a fixed name list: declared type present and
allow-listed, name not yet taken. -/
def eligiblePairs (names : List String) : List TemplateProp → List (String × String)
  | [] => []
  | p :: rest =>
    match p.type? with
    | none => eligiblePairs names rest
    | some ty =>
      if !(listHas names p.name) && listHas mergeFieldTypes ty then
        (p.name, ty) :: eligiblePairs names rest
      else
        eligiblePairs names rest

/-! ## The effectful skeleton of main (lines 66-288)

`run` maps the parsed command-line arguments and the collaborators'
responses to the trace of issued requests, the lines printed to stdout
and stderr, the computed write body, and whether the process returned
normally (exit status 0) or aborted on an uncaught HTTP error. -/

/-- The command-line arguments of lines 44-49 that affect behavior. -/
structure Args where
  debug : Bool
  index : String
  dashboardsUrl : String
  opensearchUrl : String
  template : Option String
  dryrun : Bool
deriving DecidableEq, Repr

/-- The collaborators' responses for one run.  `statusOk`, `findOk`,
`fieldsOk` and `putOk` model `raise_for_status` (and response parsing)
succeeding; `rootFetchOk` models the root GET of line 73 completing at
the transport level (its status is never checked and its `rootBody` is
never read); `templateOk` models the whole template fetch-and-parse of
lines 109-111 succeeding, with `templateErr` the stringified exception
otherwise. -/
structure Env where
  statusOk : Bool
  statusVersion : String
  rootFetchOk : Bool
  rootBody : String
  findOk : Bool
  findSavedObjectIds : List String
  fieldsOk : Bool
  fieldsList : List Field
  templateOk : Bool
  templateProps : List TemplateProp
  templateErr : String
  putOk : Bool
deriving DecidableEq, Repr

/-- The body of the write request (lines 267-271), kept structured
rather than JSON-serialized. -/
structure PutBody where
  title : String
  fields : List Field
  fieldFormatMap : List (String × DrilldownInfo)
deriving DecidableEq, Repr

/-- One outbound HTTP request of the script. -/
inductive Request where
  | getStatus (url : String)
  | getRoot (url : String)
  | findIndexPattern (url : String) (search : String)
  | getFields (url : String) (pattern : String)
  | getTemplate (url : String) (template : String)
  | putIndexPattern (url : String) (id : String) (body : PutBody)
deriving DecidableEq, Repr

/-- Is this request the write (PUT) request? -/
def Request.isPut : Request → Bool
  | .putIndexPattern _ _ _ => true
  | _ => false

/-- The observable outcome of one run. -/
structure RunResult where
  requests : List Request
  stdoutLines : List String
  stderrLines : List String
  putBody : Option PutBody
  exitOk : Bool
deriving DecidableEq, Repr

/-- Rendering of the resolved index id in the debug print of line 92
(`None` for Python's `None`). -/
def optIdStr : Option String → String
  | none => "None"
  | some s => s

/-- The template step of lines 105-146: when a template name was given,
issue the template request; on success merge its properties into the
field list, on any failure print the skip line and leave the list
unchanged.  Returns (issued requests, stderr lines, final field list). -/
def templateStep (args : Args) (env : Env) (fieldsNames : List String)
    (fieldsList : List Field) : List Request × List String × List Field :=
  match args.template with
  | none => ([], [], fieldsList)
  | some t =>
    if env.templateOk then
      ([Request.getTemplate args.opensearchUrl t], [],
       (mergeTemplateFields env.templateProps fieldsNames fieldsList).2)
    else
      ([Request.getTemplate args.opensearchUrl t],
       ["\"" ++ env.templateErr ++ "\" raised for \"" ++ t ++ "\", skipping template merge"],
       fieldsList)

/-- The whole of main after argument parsing (lines 66-288). -/
def run (args : Args) (env : Env) : RunResult :=
  let statusReq := Request.getStatus args.dashboardsUrl
  if !env.statusOk then
    { requests := [statusReq], stdoutLines := [], stderrLines := [],
      putBody := none, exitOk := false }
  else
    let dashboardsVersion := env.statusVersion
    let stderrA : List String :=
      if args.debug then ["OpenSearch Dashboards version is " ++ dashboardsVersion] else []
    let rootReq := Request.getRoot args.opensearchUrl
    if !env.rootFetchOk then
      { requests := [statusReq, rootReq], stdoutLines := [], stderrLines := stderrA,
        putBody := none, exitOk := false }
    else
      -- lines 74-75 read the STATUS response again, not the root response
      let opensearchVersion := env.statusVersion
      let stderrB : List String :=
        stderrA ++ (if args.debug then ["OpenSearch version is " ++ opensearchVersion] else [])
      let findReq := Request.findIndexPattern args.dashboardsUrl ("\"" ++ args.index ++ "\"")
      if !env.findOk then
        { requests := [statusReq, rootReq, findReq], stdoutLines := [],
          stderrLines := stderrB, putBody := none, exitOk := false }
      else
        let indexId := env.findSavedObjectIds.head?
        let stderrC : List String :=
          stderrB ++
            (if args.debug then ["Index ID for " ++ args.index ++ " is " ++ optIdStr indexId]
             else [])
        match indexId with
        | none =>
          { requests := [statusReq, rootReq, findReq],
            stdoutLines := ["failure (could not find Index ID for " ++ args.index ++ ")"],
            stderrLines := stderrC, putBody := none, exitOk := true }
        | some id =>
          let fieldsReq := Request.getFields args.dashboardsUrl args.index
          if !env.fieldsOk then
            { requests := [statusReq, rootReq, findReq, fieldsReq], stdoutLines := [],
              stderrLines := stderrC, putBody := none, exitOk := false }
          else
            let getFieldsList := env.fieldsList
            let fieldsNames := getFieldsList.map Field.name
            let tstep := templateStep args env fieldsNames getFieldsList
            let finalFields := tstep.2.2
            let stderrD : List String :=
              stderrC ++ tstep.2.1 ++
                (if args.debug then
                  [args.index ++ " would have " ++ toString finalFields.length ++ " fields"]
                 else [])
            let body : PutBody :=
              { title := args.index, fields := finalFields,
                fieldFormatMap := buildFieldFormatMap finalFields }
            if args.dryrun then
              { requests := [statusReq, rootReq, findReq, fieldsReq] ++ tstep.1,
                stdoutLines := ["success (dry run only, no write performed)"],
                stderrLines := stderrD, putBody := some body, exitOk := true }
            else
              let putReq := Request.putIndexPattern args.dashboardsUrl id body
              if !env.putOk then
                { requests := [statusReq, rootReq, findReq, fieldsReq] ++ tstep.1 ++ [putReq],
                  stdoutLines := [], stderrLines := stderrD,
                  putBody := some body, exitOk := false }
              else
                { requests := [statusReq, rootReq, findReq, fieldsReq] ++ tstep.1 ++ [putReq],
                  stdoutLines := ["success"], stderrLines := stderrD,
                  putBody := some body, exitOk := true }

/-! ## The drilldown rule table, as the specification words it

The specification describes the elif chain as an ordered rule table
evaluated in strict first-match order.  `specRuleList` is that table,
written from the specification's order of categories; `firstMatchLinks`
is first-match evaluation. -/

/-- The ordered rule table of the specification: one predicate and the
category's links, in the spec's order (IP/host or ip type; hash; hit or
signature; port; protocol; transport protocol; AS number; MIME type;
extracted file path). -/
def specRuleList : List ((Field → Bool) × List (Option UrlTemplateValues)) :=
  [ (fun f => f.type == "ip" || ipHostMatch f.name, [some vtIpLink]),
    (fun f => hashMatch f.name, [some vtHashLink]),
    (fun f => hitMatch f.name, [some webSearchLink]),
    (fun f => portMatch f.name, [some portRegistryLink]),
    (fun f => protocolMatch f.name, [some serviceRegistryLink]),
    (fun f => transportMatch f.name, [some protocolRegistryLink]),
    (fun f => asnMatch f.name, [some arinAsnLink]),
    (fun f => mimeMatch f.name, [some mediaTypeLink]),
    (fun f => extractedMatch f.name, [some dlQuarantineLink, some dlPreservedLink]) ]

/-- First-match evaluation of an ordered rule table: the links of the
first rule whose predicate holds, and nothing otherwise. -/
def firstMatchLinks :
    List ((Field → Bool) × List (Option UrlTemplateValues)) → Field →
      List (Option UrlTemplateValues)
  | [], _ => []
  | r :: rest, f => if r.1 f then r.2 else firstMatchLinks rest f

/-- First-match evaluation returns nothing or the links of one rule of
the table. -/
lemma firstMatchLinks_mem (rules : List ((Field → Bool) × List (Option UrlTemplateValues)))
    (f : Field) :
    firstMatchLinks rules f = [] ∨ ∃ r ∈ rules, firstMatchLinks rules f = r.2 := by
  induction rules with
  | nil => exact Or.inl rfl
  | cons r rest ih =>
    by_cases h : r.1 f = true
    · exact Or.inr ⟨r, List.mem_cons_self r rest, by simp [firstMatchLinks, h]⟩
    · have h' : r.1 f = false := by simpa using h
      rcases ih with h1 | ⟨r', hr', he⟩
      · exact Or.inl (by simp [firstMatchLinks, h', h1])
      · exact Or.inr ⟨r', List.mem_cons_of_mem _ hr', by simp [firstMatchLinks, h', he]⟩

/-- C1: for every field whose name starts with an alphabetic character,
the urlTemplates list is the always-present placeholder and base link
followed by the links of the first matching rule of the spec's ordered
category table (IP/host or ip type; hash; hit/signature; port;
protocol; transport protocol; AS number; MIME type; extracted file
path), so at most one category is appended and it is the first match. -/
theorem claim_C1 (f : Field) (h : startsAlpha f.name = true) :
    fieldUrlTemplates f = [none, some (arkimeLink f)] ++ firstMatchLinks specRuleList f ∧
    (firstMatchLinks specRuleList f = [] ∨
      ∃ r ∈ specRuleList, firstMatchLinks specRuleList f = r.2) :=
  ⟨rfl, firstMatchLinks_mem specRuleList f⟩

/-- Witness for C1 at the field `{name: "source.ip", type: "ip"}`. -/
theorem claim_C1_witness :
    startsAlpha "source.ip" = true ∧
    (fieldUrlTemplates ⟨"source.ip", "ip", ["ip"], true, true, true⟩ =
        [none, some (arkimeLink ⟨"source.ip", "ip", ["ip"], true, true, true⟩)] ++
          firstMatchLinks specRuleList ⟨"source.ip", "ip", ["ip"], true, true, true⟩ ∧
      (firstMatchLinks specRuleList ⟨"source.ip", "ip", ["ip"], true, true, true⟩ = [] ∨
        ∃ r ∈ specRuleList,
          firstMatchLinks specRuleList ⟨"source.ip", "ip", ["ip"], true, true, true⟩ = r.2)) :=
  ⟨by decide, claim_C1 ⟨"source.ip", "ip", ["ip"], true, true, true⟩ (by decide)⟩

/-! ## Keys of the format map -/

/-- Every entry of `dictInsert m k v` is keyed by `k` or was in `m`. -/
lemma dictInsert_mem (m : List (String × DrilldownInfo)) (k : String) (v : DrilldownInfo) :
    ∀ q ∈ dictInsert m k v, q.1 = k ∨ q ∈ m := by
  induction m with
  | nil =>
    intro q hq
    simp [dictInsert] at hq
    exact Or.inl (by rw [hq])
  | cons p rest ih =>
    obtain ⟨k', v'⟩ := p
    intro q hq
    by_cases h : (k' == k) = true
    · simp [dictInsert, h] at hq
      rcases hq with hq | hq
      · exact Or.inl (by rw [hq])
      · exact Or.inr (List.mem_cons_of_mem _ hq)
    · have h' : (k' == k) = false := by simpa using h
      simp [dictInsert, h'] at hq
      rcases hq with hq | hq
      · exact Or.inr (by rw [hq]; exact List.mem_cons_self _ _)
      · rcases ih q hq with h1 | h1
        · exact Or.inl h1
        · exact Or.inr (List.mem_cons_of_mem _ h1)

/-- One format-map step keeps the invariant that every key starts with
an alphabetic character. -/
lemma formatStep_keys (m : List (String × DrilldownInfo)) (f : Field)
    (h : ∀ q ∈ m, startsAlpha q.1 = true) : ∀ q ∈ formatStep m f, startsAlpha q.1 = true := by
  intro q hq
  unfold formatStep at hq
  by_cases ha : startsAlpha f.name = true
  · rw [if_pos ha] at hq
    rcases dictInsert_mem _ _ _ q hq with h1 | h1
    · rw [h1]; exact ha
    · exact h q h1
  · rw [if_neg ha] at hq
    exact h q hq

/-- The format-map fold keeps the alphabetic-keys invariant. -/
lemma foldl_format_keys (fields : List Field) :
    ∀ m : List (String × DrilldownInfo), (∀ q ∈ m, startsAlpha q.1 = true) →
      ∀ q ∈ fields.foldl formatStep m, startsAlpha q.1 = true := by
  induction fields with
  | nil => intro m h; simpa using h
  | cons f rest ih =>
    intro m h
    simp only [List.foldl_cons]
    exact ih _ (formatStep_keys m f h)

/-- Looking up a key that no entry carries yields nothing. -/
lemma mapLookup_eq_none_of (m : List (String × DrilldownInfo)) (n : String)
    (h : ∀ q ∈ m, startsAlpha q.1 = true) (hn : startsAlpha n = false) :
    mapLookup m n = none := by
  induction m with
  | nil => rfl
  | cons p rest ih =>
    obtain ⟨k, v⟩ := p
    have hk : startsAlpha k = true := h (k, v) (List.mem_cons_self _ _)
    have hkn : (k == n) = false := by
      by_cases he : k = n
      · rw [he] at hk; rw [hk] at hn; exact absurd hn (by simp)
      · simpa using he
    simp only [mapLookup, hkn, Bool.false_eq_true, if_false]
    exact ih fun q hq => h q (List.mem_cons_of_mem _ hq)

/-- C9: for every field list and every name that does not start with an
alphabetic character (including the empty name), the resulting format
map has no entry under that name. -/
theorem claim_C9 (fields : List Field) (n : String) (h : startsAlpha n = false) :
    mapLookup (buildFieldFormatMap fields) n = none :=
  mapLookup_eq_none_of _ _
    (foldl_format_keys fields [] (by intro q hq; exact absurd hq (List.not_mem_nil q))) h

/-- Witness for C9 at the empty field name. -/
theorem claim_C9_witness :
    startsAlpha "" = false ∧
    mapLookup (buildFieldFormatMap [⟨"source.ip", "ip", ["ip"], true, true, true⟩]) "" = none :=
  ⟨by decide, claim_C9 [⟨"source.ip", "ip", ["ip"], true, true, true⟩] "" (by decide)⟩

/-! ## C3: hash-named fields -/

/-- C3 counterexample: the field `{name: "_md5", type: "string"}` has a
name that matches the hash-algorithm pattern and does not match the
IP/host pattern (nor is its type `ip`), yet the resulting format map
has no entry for it at all — the claimed two-entry urlTemplates list
does not exist, because the name does not start with an alphabetic
character. -/
theorem claim_C3_cex :
    hashMatch "_md5" = true ∧
    ipHostMatch "_md5" = false ∧
    ((Field.mk "_md5" "string" ["keyword"] true true true).type == "ip" ||
        ipHostMatch "_md5") = false ∧
    mapLookup (buildFieldFormatMap [Field.mk "_md5" "string" ["keyword"] true true true])
      "_md5" = none := by
  decide

/-- C3 amended: for every field whose name starts with an alphabetic
character, whose semantic type is not `ip`, and whose name matches the
hash-algorithm pattern but not the IP/host pattern, the format-map
entry's urlTemplates is exactly the placeholder, the base link, and
the hash-reputation link. -/
theorem claim_C3 (f : Field) (h1 : startsAlpha f.name = true)
    (h2 : (f.type == "ip") = false) (h3 : ipHostMatch f.name = false)
    (h4 : hashMatch f.name = true) :
    fieldUrlTemplates f = [none, some (arkimeLink f), some vtHashLink] ∧
    mapLookup (buildFieldFormatMap [f]) f.name =
      some { id := "drilldown",
             params := { urlTemplates := [none, some (arkimeLink f), some vtHashLink] } } := by
  have hcat : categoryLinks f = [some vtHashLink] := by
    simp [categoryLinks, h2, h3, h4]
  refine ⟨by simp [fieldUrlTemplates, hcat], ?_⟩
  simp [buildFieldFormatMap, formatStep, h1, dictInsert, mapLookup, fieldUrlTemplates, hcat]

/-- Witness for C3 at the field `{name: "file.md5", type: "string"}`. -/
theorem claim_C3_witness :
    fieldUrlTemplates ⟨"file.md5", "string", ["keyword"], true, true, true⟩ =
      [none, some (arkimeLink ⟨"file.md5", "string", ["keyword"], true, true, true⟩),
       some vtHashLink] ∧
    mapLookup (buildFieldFormatMap [⟨"file.md5", "string", ["keyword"], true, true, true⟩])
        "file.md5" =
      some { id := "drilldown",
             params := { urlTemplates :=
               [none, some (arkimeLink ⟨"file.md5", "string", ["keyword"], true, true, true⟩),
                some vtHashLink] } } :=
  claim_C3 ⟨"file.md5", "string", ["keyword"], true, true, true⟩
    (by decide) (by decide) (by decide) (by decide)

/-! ## C4: the base link -/

/-- C4: for every field whose name starts with an alphabetic character,
the entry after the placeholder is the base link, whose URL carries the
`db:` prefix exactly when the name does not start with `zeek` and whose
interpolated value is quoted exactly when the semantic type is
`string`; and the field `{name: "source.ip", type: "ip"}` yields the
entry `[placeholder, db:source.ip == {{value}} unquoted, VirusTotal IP
reputation link]` (the base URL also carries the fixed `/idkib2ark/`
path of the investigative tool). -/
theorem claim_C4 :
    (∀ f : Field, startsAlpha f.name = true →
      (fieldUrlTemplates f).take 2 = [none, some (arkimeLink f)] ∧
      (arkimeLink f).url =
        "/idkib2ark/" ++ (if hasPfx "zeek".data f.name.data then "" else "db:") ++ f.name ++
          " == " ++ (if f.type == "string" then "\"" else "") ++ "\x7b\x7bvalue\x7d\x7d" ++
          (if f.type == "string" then "\"" else "")) ∧
    mapLookup (buildFieldFormatMap [⟨"source.ip", "ip", ["ip"], true, true, true⟩])
        "source.ip" =
      some { id := "drilldown",
             params := { urlTemplates :=
               [none,
                some { url := "/idkib2ark/db:source.ip == \x7b\x7bvalue\x7d\x7d",
                       label := "Arkime source.ip: \x7b\x7bvalue\x7d\x7d" },
                some vtIpLink] } } ∧
    vtIpLink.url = "https://www.virustotal.com/en/ip-address/\x7b\x7bvalue\x7d\x7d/information/" := by
  refine ⟨fun f h => ⟨rfl, rfl⟩, by decide, rfl⟩

/-- Witness for C4 at the string-typed field `{name: "host.name",
type: "string"}`: value quoted, name prefixed with `db:`. -/
theorem claim_C4_witness :
    (fieldUrlTemplates ⟨"host.name", "string", ["keyword"], true, true, true⟩).take 2 =
      [none, some (arkimeLink ⟨"host.name", "string", ["keyword"], true, true, true⟩)] ∧
    (arkimeLink ⟨"host.name", "string", ["keyword"], true, true, true⟩).url =
      "/idkib2ark/db:host.name == \"\x7b\x7bvalue\x7d\x7d\"" :=
  claim_C4.1 ⟨"host.name", "string", ["keyword"], true, true, true⟩ (by decide)

/-! ## C2: characterizing the template merge -/

/-- Membership after appending one name at the end. -/
lemma listHas_append (xs : List String) (y z : String) :
    listHas (xs ++ [y]) z = (listHas xs z || y == z) := by
  induction xs with
  | nil => simp [listHas]
  | cons x rest ih => simp [listHas, ih, Bool.or_assoc]

/-- Appending a name carried by no remaining property does not change
which properties are eligible. -/
lemma eligiblePairs_extend (props : List TemplateProp) (names : List String) (n0 : String)
    (h : ∀ p ∈ props, p.name ≠ n0) :
    eligiblePairs (names ++ [n0]) props = eligiblePairs names props := by
  induction props with
  | nil => rfl
  | cons p rest ih =>
    have hp : p.name ≠ n0 := h p (List.mem_cons_self _ _)
    have hrest : ∀ q ∈ rest, q.name ≠ n0 := fun q hq => h q (List.mem_cons_of_mem _ hq)
    have hb : (n0 == p.name) = false := by
      simpa using fun he => hp he.symm
    cases htyp : p.type? with
    | none => simp [eligiblePairs, htyp, ih hrest]
    | some ty => simp [eligiblePairs, htyp, listHas_append, hb, ih hrest]

/-- The merge loop appends exactly the eligible properties' names and
synthesized descriptors, in template order, when the template's
property names are pairwise distinct (they are keys of one JSON
object). -/
lemma mergeTemplateFields_spec (props : List TemplateProp) :
    ∀ (names : List String) (fields : List Field),
      (props.map TemplateProp.name).Nodup →
      mergeTemplateFields props names fields =
        (names ++ (eligiblePairs names props).map Prod.fst,
         fields ++ (eligiblePairs names props).map fun q => mergedFieldInfo q.1 q.2) := by
  induction props with
  | nil => intro names fields _; simp [mergeTemplateFields, eligiblePairs]
  | cons p rest ih =>
    intro names fields hnd
    rw [List.map_cons, List.nodup_cons] at hnd
    obtain ⟨hnotin, hnd'⟩ := hnd
    have hrest : ∀ q ∈ rest, q.name ≠ p.name := by
      intro q hq heq
      exact hnotin (List.mem_map.mpr ⟨q, hq, heq⟩)
    cases htyp : p.type? with
    | none => simp [mergeTemplateFields, eligiblePairs, htyp, ih names fields hnd']
    | some ty =>
      by_cases hc : (!(listHas names p.name) && listHas mergeFieldTypes ty) = true
      · simp only [mergeTemplateFields, eligiblePairs, htyp, hc, if_true]
        rw [ih _ _ hnd', eligiblePairs_extend rest names p.name hrest]
        simp [List.append_assoc]
      · have hc' : (!(listHas names p.name) && listHas mergeFieldTypes ty) = false := by
          simpa using hc
        simp [mergeTemplateFields, eligiblePairs, htyp, hc', ih names fields hnd']

/-- A (name, type) pair is eligible exactly when some template property
declares it, its type is allow-listed, and the name is not yet taken. -/
lemma eligiblePairs_mem (names : List String) (props : List TemplateProp) (q : String × String) :
    q ∈ eligiblePairs names props ↔
      (∃ p ∈ props, p.name = q.1 ∧ p.type? = some q.2) ∧
        listHas mergeFieldTypes q.2 = true ∧ listHas names q.1 = false := by
  obtain ⟨q1, q2⟩ := q
  induction props with
  | nil => simp [eligiblePairs]
  | cons p rest ih =>
    cases htyp : p.type? with
    | none =>
      simp only [eligiblePairs, htyp]
      rw [ih]
      constructor
      · rintro ⟨⟨p', hp', h1, h2⟩, h3, h4⟩
        exact ⟨⟨p', List.mem_cons_of_mem _ hp', h1, h2⟩, h3, h4⟩
      · rintro ⟨⟨p', hp', h1, h2⟩, h3, h4⟩
        rcases List.mem_cons.mp hp' with he | hm
        · rw [he] at h2; rw [htyp] at h2; exact absurd h2 (by simp)
        · exact ⟨⟨p', hm, h1, h2⟩, h3, h4⟩
    | some ty =>
      by_cases hc : (!(listHas names p.name) && listHas mergeFieldTypes ty) = true
      · have hand : listHas names p.name = false ∧ listHas mergeFieldTypes ty = true := by
          simpa using hc
        simp only [eligiblePairs, htyp]
        rw [if_pos hc]
        constructor
        · intro hq
          rcases List.mem_cons.mp hq with he | hm
          · have hq1 : p.name = q1 := (congrArg Prod.fst he).symm
            have hq2 : ty = q2 := (congrArg Prod.snd he).symm
            refine ⟨⟨p, List.mem_cons_self _ _, hq1, by rw [htyp, hq2]⟩, ?_, ?_⟩
            · rw [← hq2]; exact hand.2
            · rw [← hq1]; exact hand.1
          · rcases ih.mp hm with ⟨⟨p', hp', h1, h2⟩, h3, h4⟩
            exact ⟨⟨p', List.mem_cons_of_mem _ hp', h1, h2⟩, h3, h4⟩
        · rintro ⟨⟨p', hp', h1, h2⟩, h3, h4⟩
          rcases List.mem_cons.mp hp' with he | hm
          · apply List.mem_cons.mpr
            left
            rw [he] at h1 h2
            rw [htyp] at h2
            have hty : ty = q2 := by injection h2
            rw [h1, hty]
          · exact List.mem_cons_of_mem _ (ih.mpr ⟨⟨p', hm, h1, h2⟩, h3, h4⟩)
      · simp only [eligiblePairs, htyp]
        rw [if_neg hc]
        rw [ih]
        have hor : listHas names p.name = true ∨ listHas mergeFieldTypes ty = false := by
          by_cases h : listHas names p.name = true
          · exact Or.inl h
          · have hf : listHas names p.name = false := by simpa using h
            by_cases h' : listHas mergeFieldTypes ty = false
            · exact Or.inr h'
            · have ht : listHas mergeFieldTypes ty = true := by simpa using h'
              exact absurd (by simp [hf, ht]) hc
        constructor
        · rintro ⟨⟨p', hp', h1, h2⟩, h3, h4⟩
          exact ⟨⟨p', List.mem_cons_of_mem _ hp', h1, h2⟩, h3, h4⟩
        · rintro ⟨⟨p', hp', h1, h2⟩, h3, h4⟩
          rcases List.mem_cons.mp hp' with he | hm
          · exfalso
            rw [he] at h1 h2; rw [htyp] at h2
            have hty : ty = q2 := by injection h2
            rcases hor with hcl | hcr
            · rw [h1] at hcl; rw [h4] at hcl; exact absurd hcl (by simp)
            · rw [hty] at hcr; rw [h3] at hcr; exact absurd hcr (by simp)
          · exact ⟨⟨p', hm, h1, h2⟩, h3, h4⟩

/-- The synthesized descriptor's attributes (lines 123-138). -/
lemma mergedFieldInfo_attrs (n ty : String) :
    (mergedFieldInfo n ty).name = n ∧
    (mergedFieldInfo n ty).esTypes = [ty] ∧
    (mergedFieldInfo n ty).searchable = true ∧
    (mergedFieldInfo n ty).aggregatable = !(ty == "text") ∧
    (mergedFieldInfo n ty).readFromDocValues = !(ty == "text") ∧
    ((ty = "float" ∨ ty = "integer" ∨ ty = "long" ∨ ty = "short") →
      (mergedFieldInfo n ty).type = "number") ∧
    ((ty = "keyword" ∨ ty = "text") → (mergedFieldInfo n ty).type = "string") ∧
    (¬(ty = "float" ∨ ty = "integer" ∨ ty = "long" ∨ ty = "short") →
      ¬(ty = "keyword" ∨ ty = "text") → (mergedFieldInfo n ty).type = ty) := by
  refine ⟨rfl, rfl, rfl, ?_, ?_, ?_, ?_, ?_⟩
  · simp [mergedFieldInfo, listHas]
  · simp [mergedFieldInfo, listHas]
  · rintro (h | h | h | h) <;> subst h <;> rfl
  · rintro (h | h) <;> subst h <;> rfl
  · intro hnum hstr
    push_neg at hnum hstr
    simp [mergedFieldInfo, beq_iff_eq, hnum.1, hnum.2.1, hnum.2.2.1, hnum.2.2.2,
      hstr.1, hstr.2]

/-- C2: with a template whose property names are pairwise distinct, the
merge appends exactly the properties whose declared type is in the
allow-list and whose name is absent from the live name list (a
disjoint addition, in template order), and each synthesized descriptor
maps float/integer/long/short to semantic type "number", keyword/text
to "string", any other allow-listed type through unchanged, and has
searchable true, aggregatable true unless the type is "text", and
readFromDocValues equal to aggregatable. -/
theorem claim_C2 (names : List String) (fields : List Field) (props : List TemplateProp)
    (hnd : (props.map TemplateProp.name).Nodup) :
    mergeTemplateFields props names fields =
      (names ++ (eligiblePairs names props).map Prod.fst,
       fields ++ (eligiblePairs names props).map fun q => mergedFieldInfo q.1 q.2) ∧
    (∀ q : String × String,
      q ∈ eligiblePairs names props ↔
        (∃ p ∈ props, p.name = q.1 ∧ p.type? = some q.2) ∧
          listHas mergeFieldTypes q.2 = true ∧ listHas names q.1 = false) ∧
    (∀ q ∈ eligiblePairs names props,
      listHas names q.1 = false ∧
      (mergedFieldInfo q.1 q.2).name = q.1 ∧
      (mergedFieldInfo q.1 q.2).searchable = true ∧
      (mergedFieldInfo q.1 q.2).aggregatable = !(q.2 == "text") ∧
      (mergedFieldInfo q.1 q.2).readFromDocValues = !(q.2 == "text") ∧
      ((q.2 = "float" ∨ q.2 = "integer" ∨ q.2 = "long" ∨ q.2 = "short") →
        (mergedFieldInfo q.1 q.2).type = "number") ∧
      ((q.2 = "keyword" ∨ q.2 = "text") → (mergedFieldInfo q.1 q.2).type = "string") ∧
      (¬(q.2 = "float" ∨ q.2 = "integer" ∨ q.2 = "long" ∨ q.2 = "short") →
        ¬(q.2 = "keyword" ∨ q.2 = "text") → (mergedFieldInfo q.1 q.2).type = q.2)) := by
  refine ⟨mergeTemplateFields_spec props names fields hnd, eligiblePairs_mem names props, ?_⟩
  intro q hq
  have hmem := (eligiblePairs_mem names props q).mp hq
  have hattrs := mergedFieldInfo_attrs q.1 q.2
  exact ⟨hmem.2.2, hattrs.1, hattrs.2.2.1, hattrs.2.2.2.1, hattrs.2.2.2.2.1,
    hattrs.2.2.2.2.2.1, hattrs.2.2.2.2.2.2.1, hattrs.2.2.2.2.2.2.2⟩

/-- Concrete template for the C2 witness: one new long field, one name
collision, one new text field, one disallowed type, one missing type. -/
def c2props : List TemplateProp :=
  [⟨"http.status_code", some "long"⟩, ⟨"existing", some "text"⟩,
   ⟨"note", some "text"⟩, ⟨"location", some "geo_point"⟩, ⟨"raw", none⟩]

/-- Witness for C2: against live names `["existing"]`, exactly
`http.status_code` (long) and `note` (text) are merged. -/
theorem claim_C2_witness :
    (c2props.map TemplateProp.name).Nodup ∧
    mergeTemplateFields c2props ["existing"] [] =
      (["existing"] ++ (eligiblePairs ["existing"] c2props).map Prod.fst,
       [] ++ (eligiblePairs ["existing"] c2props).map fun q => mergedFieldInfo q.1 q.2) ∧
    (eligiblePairs ["existing"] c2props).map Prod.fst = ["http.status_code", "note"] ∧
    (mergedFieldInfo "http.status_code" "long").type = "number" ∧
    (mergedFieldInfo "http.status_code" "long").aggregatable = true ∧
    (mergedFieldInfo "http.status_code" "long").readFromDocValues = true ∧
    (mergedFieldInfo "note" "text").aggregatable = false ∧
    (mergedFieldInfo "note" "text").readFromDocValues = false :=
  ⟨by decide, (claim_C2 ["existing"] [] c2props (by decide)).1,
    by decide, by decide, by decide, by decide, by decide, by decide⟩

/-! ## C5: counting outbound requests -/

@[simp] lemma isPut_getStatus (u : String) : (Request.getStatus u).isPut = false := rfl

@[simp] lemma isPut_getRoot (u : String) : (Request.getRoot u).isPut = false := rfl

@[simp] lemma isPut_findIndexPattern (u s : String) :
    (Request.findIndexPattern u s).isPut = false := rfl

@[simp] lemma isPut_getFields (u p : String) : (Request.getFields u p).isPut = false := rfl

@[simp] lemma isPut_getTemplate (u t : String) : (Request.getTemplate u t).isPut = false := rfl

@[simp] lemma isPut_putIndexPattern (u i : String) (b : PutBody) :
    (Request.putIndexPattern u i b).isPut = true := rfl

/-- The template step issues at most one request. -/
lemma templateStep_reqs_length (args : Args) (env : Env) (ns : List String)
    (fl : List Field) : (templateStep args env ns fl).1.length ≤ 1 := by
  unfold templateStep
  repeat' split
  all_goals simp

/-- No request issued by the template step is the write request. -/
lemma templateStep_no_put (args : Args) (env : Env) (ns : List String) (fl : List Field) :
    ∀ r ∈ (templateStep args env ns fl).1, r.isPut = false := by
  unfold templateStep
  repeat' split
  all_goals intro r hr
  all_goals simp_all [Request.isPut]

/-- Arguments for the C5 counterexample: a template is supplied and a
real write is requested. -/
def argsC5 : Args :=
  { debug := false, index := "test-*",
    dashboardsUrl := "http://dashboards:5601/dashboards",
    opensearchUrl := "http://opensearch:9200",
    template := some "custom", dryrun := false }

/-- Responses for the C5 counterexample: everything succeeds and the
pattern resolves. -/
def envC5 : Env :=
  { statusOk := true, statusVersion := "2.8.0", rootFetchOk := true, rootBody := "{}",
    findOk := true, findSavedObjectIds := ["abc123"], fieldsOk := true, fieldsList := [],
    templateOk := true, templateProps := [], templateErr := "", putOk := true }

/-- C5 counterexample: with a template supplied and no dry run, a
successful run issues six outbound requests (the data-store root GET of
line 73 is the sixth), not at most five. -/
theorem claim_C5_cex : ¬((run argsC5 envC5).requests.length ≤ 5) := by decide

/-- C5 amended: every run issues at most six outbound requests (status,
data-store root, pattern lookup, field list, optional template fetch,
optional write). -/
theorem claim_C5 (args : Args) (env : Env) : (run args env).requests.length ≤ 6 := by
  obtain ⟨dbg, idx, durl, ourl, tmpl, dry⟩ := args
  obtain ⟨so, sv, ro, rb, fo, fids, fok, fl, tok, tp, te, po⟩ := env
  have ht := templateStep_reqs_length ⟨dbg, idx, durl, ourl, tmpl, dry⟩
    ⟨so, sv, ro, rb, fo, fids, fok, fl, tok, tp, te, po⟩ (fl.map Field.name) fl
  unfold run
  cases so <;> cases ro <;> cases fo <;> cases fok <;> cases fids <;> cases dry <;> cases po <;>
    first
      | (simp_all [List.length_append]; omega)
      | simp_all [List.length_append]

/-! ## C6: pattern not found -/

/-- C6: when the pattern lookup succeeds but returns zero saved
objects, the run prints exactly the literal failure message with the
index name interpolated, returns normally (exit status 0), and its
request trace is exactly the status, root, and lookup requests — no
field fetch, template fetch, or write follows. -/
theorem claim_C6 (args : Args) (env : Env) (h1 : env.statusOk = true)
    (h2 : env.rootFetchOk = true) (h3 : env.findOk = true)
    (h4 : env.findSavedObjectIds = []) :
    (run args env).stdoutLines = ["failure (could not find Index ID for " ++ args.index ++ ")"] ∧
    (run args env).exitOk = true ∧
    (run args env).requests =
      [Request.getStatus args.dashboardsUrl, Request.getRoot args.opensearchUrl,
       Request.findIndexPattern args.dashboardsUrl ("\"" ++ args.index ++ "\"")] := by
  simp [run, h1, h2, h3, h4]

/-- Arguments for the C6 witness. -/
def argsC6 : Args :=
  { debug := false, index := "arkime_sessions3-*",
    dashboardsUrl := "http://dashboards:5601/dashboards",
    opensearchUrl := "http://opensearch:9200", template := none, dryrun := false }

/-- Responses for the C6 witness: the lookup returns no saved objects. -/
def envC6 : Env :=
  { statusOk := true, statusVersion := "2.8.0", rootFetchOk := true, rootBody := "{}",
    findOk := true, findSavedObjectIds := [], fieldsOk := true, fieldsList := [],
    templateOk := true, templateProps := [], templateErr := "", putOk := true }

/-- Witness for C6. -/
theorem claim_C6_witness :
    envC6.findSavedObjectIds = [] ∧
    ((run argsC6 envC6).stdoutLines =
        ["failure (could not find Index ID for " ++ argsC6.index ++ ")"] ∧
      (run argsC6 envC6).exitOk = true ∧
      (run argsC6 envC6).requests =
        [Request.getStatus argsC6.dashboardsUrl, Request.getRoot argsC6.opensearchUrl,
         Request.findIndexPattern argsC6.dashboardsUrl ("\"" ++ argsC6.index ++ "\"")]) :=
  ⟨rfl, claim_C6 argsC6 envC6 rfl rfl rfl rfl⟩

/-! ## C7: template errors are non-fatal -/

/-- C7: when a template was supplied and its fetch or parse fails, the
skip message is logged to stderr, no template field reaches the
computed write body (the field list stays the live list), and the run
still reaches the write/report stage: on a dry run it prints the dry
success message, otherwise it issues the write request. -/
theorem claim_C7 (args : Args) (env : Env) (t i : String) (rest : List String)
    (h1 : env.statusOk = true) (h2 : env.rootFetchOk = true) (h3 : env.findOk = true)
    (h4 : env.findSavedObjectIds = i :: rest) (h5 : env.fieldsOk = true)
    (h6 : args.template = some t) (h7 : env.templateOk = false) :
    ("\"" ++ env.templateErr ++ "\" raised for \"" ++ t ++ "\", skipping template merge")
        ∈ (run args env).stderrLines ∧
    (run args env).putBody =
      some { title := args.index, fields := env.fieldsList,
             fieldFormatMap := buildFieldFormatMap env.fieldsList } ∧
    (args.dryrun = true →
      (run args env).stdoutLines = ["success (dry run only, no write performed)"] ∧
      (run args env).exitOk = true) ∧
    (args.dryrun = false →
      Request.putIndexPattern args.dashboardsUrl i
          { title := args.index, fields := env.fieldsList,
            fieldFormatMap := buildFieldFormatMap env.fieldsList } ∈ (run args env).requests) := by
  cases hd : args.dryrun <;> cases hp : env.putOk <;>
    simp_all [run, templateStep, List.mem_append]

/-- Arguments for the C7 witness: template supplied, no dry run. -/
def argsC7 : Args :=
  { debug := false, index := "test-*",
    dashboardsUrl := "http://dashboards:5601/dashboards",
    opensearchUrl := "http://opensearch:9200", template := some "custom", dryrun := false }

/-- Responses for the C7 witness: the template fetch fails. -/
def envC7 : Env :=
  { statusOk := true, statusVersion := "2.8.0", rootFetchOk := true, rootBody := "{}",
    findOk := true, findSavedObjectIds := ["abc123"], fieldsOk := true,
    fieldsList := [⟨"source.ip", "ip", ["ip"], true, true, true⟩],
    templateOk := false, templateProps := [⟨"ignored", some "long"⟩],
    templateErr := "404 Client Error", putOk := true }

/-- Witness for C7. -/
theorem claim_C7_witness :
    ("\"" ++ envC7.templateErr ++ "\" raised for \"" ++ "custom" ++ "\", skipping template merge")
        ∈ (run argsC7 envC7).stderrLines ∧
    (run argsC7 envC7).putBody =
      some { title := argsC7.index, fields := envC7.fieldsList,
             fieldFormatMap := buildFieldFormatMap envC7.fieldsList } ∧
    (argsC7.dryrun = true →
      (run argsC7 envC7).stdoutLines = ["success (dry run only, no write performed)"] ∧
      (run argsC7 envC7).exitOk = true) ∧
    (argsC7.dryrun = false →
      Request.putIndexPattern argsC7.dashboardsUrl "abc123"
          { title := argsC7.index, fields := envC7.fieldsList,
            fieldFormatMap := buildFieldFormatMap envC7.fieldsList }
        ∈ (run argsC7 envC7).requests) :=
  claim_C7 argsC7 envC7 "custom" "abc123" [] rfl rfl rfl rfl rfl rfl rfl

/-! ## C8: dry runs never write -/

/-- C8: with dry run requested, no issued request is the write request,
and whenever the pipeline reaches the final stage it prints the dry-run
success message, returns normally, and has computed exactly the write
body the non-dry run would have computed. -/
theorem claim_C8 (args : Args) (env : Env) (h : args.dryrun = true) :
    (∀ r ∈ (run args env).requests, r.isPut = false) ∧
    (∀ (i : String) (rest : List String),
      env.statusOk = true → env.rootFetchOk = true → env.findOk = true →
      env.findSavedObjectIds = i :: rest → env.fieldsOk = true →
      (run args env).stdoutLines = ["success (dry run only, no write performed)"] ∧
      (run args env).exitOk = true ∧
      (run args env).putBody = (run { args with dryrun := false } env).putBody) := by
  obtain ⟨dbg, idx, durl, ourl, tmpl, dry⟩ := args
  obtain ⟨so, sv, ro, rb, fo, fids, fok, fl, tok, tp, te, po⟩ := env
  replace h : dry = true := h
  subst h
  constructor
  · have hnp := templateStep_no_put ⟨dbg, idx, durl, ourl, tmpl, true⟩
      ⟨so, sv, ro, rb, fo, fids, fok, fl, tok, tp, te, po⟩ (fl.map Field.name) fl
    unfold run
    cases so <;> cases ro <;> cases fo <;> cases fok <;> cases fids <;>
      first
        | (simp [List.forall_mem_append, List.forall_mem_cons]
           done)
        | (simp [List.forall_mem_append, List.forall_mem_cons]
           simpa using hnp)
  · intro i rest h1 h2 h3 h4 h5
    replace h1 : so = true := h1
    replace h2 : ro = true := h2
    replace h3 : fo = true := h3
    replace h4 : fids = i :: rest := h4
    replace h5 : fok = true := h5
    subst h1; subst h2; subst h3; subst h4; subst h5
    cases tmpl <;> cases tok <;> cases po <;> simp [run, templateStep]

/-- Arguments for the C8 witness: dry run requested. -/
def argsC8 : Args :=
  { debug := false, index := "test-*",
    dashboardsUrl := "http://dashboards:5601/dashboards",
    opensearchUrl := "http://opensearch:9200", template := none, dryrun := true }

/-- Responses for the C8 witness: everything succeeds. -/
def envC8 : Env :=
  { statusOk := true, statusVersion := "2.8.0", rootFetchOk := true, rootBody := "{}",
    findOk := true, findSavedObjectIds := ["abc123"], fieldsOk := true,
    fieldsList := [⟨"source.ip", "ip", ["ip"], true, true, true⟩],
    templateOk := true, templateProps := [], templateErr := "", putOk := true }

/-- Witness for C8. -/
theorem claim_C8_witness :
    (∀ r ∈ (run argsC8 envC8).requests, r.isPut = false) ∧
    (run argsC8 envC8).stdoutLines = ["success (dry run only, no write performed)"] ∧
    (run argsC8 envC8).exitOk = true ∧
    (run argsC8 envC8).putBody = (run { argsC8 with dryrun := false } envC8).putBody :=
  ⟨(claim_C8 argsC8 envC8 rfl).1,
   (claim_C8 argsC8 envC8 rfl).2 "abc123" [] rfl rfl rfl rfl rfl⟩

/-! ## C10: the root response body is dead -/

/-- C10: two runs that differ only in the body of the data-store root
response are observably identical (the response is fetched and never
read), and in verbose mode the line reporting the "OpenSearch version"
carries the dashboard service's status version, because lines 74-75
read the status response instead of the root response. -/
theorem claim_C10 :
    (∀ (args : Args) (env : Env) (b1 b2 : String),
      run args { env with rootBody := b1 } = run args { env with rootBody := b2 }) ∧
    (∀ (args : Args) (env : Env), args.debug = true → env.statusOk = true →
      env.rootFetchOk = true →
      ("OpenSearch version is " ++ env.statusVersion) ∈ (run args env).stderrLines) := by
  constructor
  · intro args env b1 b2
    cases env
    rfl
  · intro args env hd h1 h2
    obtain ⟨dbg, idx, durl, ourl, tmpl, dry⟩ := args
    obtain ⟨so, sv, ro, rb, fo, fids, fok, fl, tok, tp, te, po⟩ := env
    replace hd : dbg = true := hd
    replace h1 : so = true := h1
    replace h2 : ro = true := h2
    subst hd; subst h1; subst h2
    cases fo <;> cases fids <;> cases fok <;> cases tmpl <;> cases tok <;> cases dry <;>
      cases po <;> simp [run, templateStep, List.mem_append]

/-- Arguments for the C10 witness: verbose mode. -/
def argsC10 : Args :=
  { debug := true, index := "test-*",
    dashboardsUrl := "http://dashboards:5601/dashboards",
    opensearchUrl := "http://opensearch:9200", template := none, dryrun := true }

/-- Responses for the C10 witness. -/
def envC10 : Env :=
  { statusOk := true, statusVersion := "1.3.1", rootFetchOk := true, rootBody := "versionA",
    findOk := true, findSavedObjectIds := ["abc123"], fieldsOk := true, fieldsList := [],
    templateOk := true, templateProps := [], templateErr := "", putOk := true }

/-- Witness for C10. -/
theorem claim_C10_witness :
    run argsC10 { envC10 with rootBody := "A" } = run argsC10 { envC10 with rootBody := "B" } ∧
    ("OpenSearch version is " ++ envC10.statusVersion) ∈ (run argsC10 envC10).stderrLines :=
  ⟨claim_C10.1 argsC10 envC10 "A" "B", claim_C10.2 argsC10 envC10 rfl rfl rfl⟩

end IndexRefresh
